/-
  Verification of the Guardrail Validation Pipeline of the solvix-ai repository.

  The Python sources under src/src/guardrails/ are shallowly embedded:
  pure functions become Lean functions, Python float arithmetic is modelled
  by exact rationals, Python exceptions raised by a guardrail are modelled
  by the Except monad, and the regex extraction stages (which turn the raw
  draft text into lists of extracted amounts, day counts, dates and email
  strings) are represented by the extracted lists themselves, which the
  per-check validators consume exactly as the source does.
-/
import Mathlib

namespace Solvix

/-! ## Result model (src/src/guardrails/base.py) -/

/-- Severity levels for guardrail failures (class GuardrailSeverity). -/
inductive GuardrailSeverity where
  | CRITICAL
  | HIGH
  | MEDIUM
  | LOW
deriving DecidableEq, Repr

/-- Severity rank used by GuardrailPipeline.__init__ to sort guardrails
    (CRITICAL=0, HIGH=1, MEDIUM=2, LOW=3). -/
def severityRank : GuardrailSeverity → Nat
  | .CRITICAL => 0
  | .HIGH => 1
  | .MEDIUM => 2
  | .LOW => 3

/-- Result of a single guardrail validation check (dataclass GuardrailResult).
    The Python `details` dict is modelled as an association list of strings;
    `expected` and `found` hold string renderings of the evidence values. -/
structure GuardrailResult where
  passed : Bool
  guardrail_name : String
  severity : GuardrailSeverity
  message : String := ""
  details : List (String × String) := []
  expected : Option String := none
  found : Option String := none
deriving DecidableEq, Repr

/-- GuardrailResult.should_block property: whether this failure should block
    the output (not passed and severity in [CRITICAL, HIGH]). -/
def GuardrailResult.should_block (r : GuardrailResult) : Bool :=
  !r.passed && (r.severity == GuardrailSeverity.CRITICAL
    || r.severity == GuardrailSeverity.HIGH)

/-- Result of running all guardrails in the pipeline
    (dataclass GuardrailPipelineResult). -/
structure GuardrailPipelineResult where
  all_passed : Bool
  should_block : Bool
  results : List GuardrailResult
  retry_suggested : Bool := false
  blocking_guardrails : List String := []
deriving DecidableEq, Repr

/-- BaseGuardrail._pass helper: a passing result; an empty message defaults
    to "name validation passed". -/
def mkPass (name : String) (sev : GuardrailSeverity) (message : String)
    (details : List (String × String)) : GuardrailResult :=
  { passed := true, guardrail_name := name, severity := sev,
    message := if message = "" then name ++ " validation passed" else message,
    details := details }

/-- BaseGuardrail._fail helper: a failing result. -/
def mkFail (name : String) (sev : GuardrailSeverity) (message : String)
    (expected found : Option String) (details : List (String × String)) :
    GuardrailResult :=
  { passed := false, guardrail_name := name, severity := sev,
    message := message, details := details, expected := expected, found := found }

/-! ## Case context data model (src/src/api/models/requests.py),
    restricted to the fields the guardrails read. -/

/-- PartyInfo: party (debtor) information. -/
structure PartyInfo where
  party_id : String
  customer_code : String
  name : String
deriving DecidableEq, Repr

/-- ObligationInfo: a single invoice/obligation. Float amounts are modelled
    as exact rationals. -/
structure ObligationInfo where
  invoice_number : String
  original_amount : ℚ
  amount_due : ℚ
  due_date : String
  days_past_due : ℤ
  state : String := "open"
deriving DecidableEq, Repr

/-- CaseContext: full case context for AI operations (the fields consumed by
    the guardrail subsystem). -/
structure CaseContext where
  party : PartyInfo
  obligations : List ObligationInfo := []
  broken_promises_count : ℤ := 0
  active_dispute : Bool := false
  hardship_indicated : Bool := false
deriving DecidableEq, Repr

/-! ## Pipeline orchestrator (src/src/guardrails/pipeline.py) -/

/-- A guardrail as the pipeline sees it: a fixed name and severity assigned
    at construction, and a validate function from the draft text and the
    context to a list of check results.  A Python exception raised by
    validate is modelled by the error branch of Except, carrying str(e). -/
structure Guardrail (Ctx : Type) where
  name : String
  severity : GuardrailSeverity
  validate : String → Ctx → Except String (List GuardrailResult)

/-- The mutable loop state of GuardrailPipeline.validate: the accumulated
    all_results, blocking_guardrails and should_block variables. -/
structure PipeState where
  all_results : List GuardrailResult
  blocking : List String
  should_block : Bool
deriving DecidableEq, Repr

/-- The synthetic failing result the pipeline appends when a guardrail
    raises an exception (pipeline.py lines 118-126). -/
def syntheticFailure (name e : String) : GuardrailResult :=
  { passed := false, guardrail_name := name,
    severity := GuardrailSeverity.HIGH,
    message := "Guardrail execution error: " ++ e,
    details := [("exception", e)] }

/-- The result object built after the loop over guardrails completes
    (pipeline.py lines 130-138): all_passed is the conjunction of passed
    over all results, retry_suggested is should_block and
    len(blocking_guardrails) <= 2. -/
def mkFinalResult (st : PipeState) : GuardrailPipelineResult :=
  { all_passed := st.all_results.all (fun r => r.passed),
    should_block := st.should_block,
    results := st.all_results,
    retry_suggested := st.should_block && decide (st.blocking.length ≤ 2),
    blocking_guardrails := st.blocking }

/-- The inner loop `for result in results` of GuardrailPipeline.validate
    (pipeline.py lines 96-113).  The state already holds the full extended
    all_results.  For each blocking result the guardrail name is appended
    and should_block is set; if fail_fast is on and the result severity is
    CRITICAL the pipeline returns immediately (the Sum.inr branch) with
    all_passed=False, should_block=True and retry_suggested=True. -/
def runChecks (fail_fast : Bool) (name : String) :
    List GuardrailResult → PipeState → PipeState ⊕ GuardrailPipelineResult
  | [], st => Sum.inl st
  | r :: rs, st =>
    if r.should_block then
      let st2 : PipeState :=
        { st with should_block := true, blocking := st.blocking ++ [name] }
      if fail_fast && (r.severity == GuardrailSeverity.CRITICAL) then
        Sum.inr
          { all_passed := false, should_block := true,
            results := st.all_results, retry_suggested := true,
            blocking_guardrails := st2.blocking }
      else
        runChecks fail_fast name rs st2
    else
      runChecks fail_fast name rs st

/-- The outer loop `for guardrail in self.guardrails` of
    GuardrailPipeline.validate (pipeline.py lines 90-138).  On success the
    returned results are appended to all_results and scanned by runChecks;
    on an exception the synthetic HIGH failing result is appended, the
    aggregate is marked blocking, and the loop continues. -/
def runGuardrails {Ctx : Type} (output : String) (ctx : Ctx) (fail_fast : Bool) :
    List (Guardrail Ctx) → PipeState → GuardrailPipelineResult
  | [], st => mkFinalResult st
  | g :: gs, st =>
    match g.validate output ctx with
    | Except.ok rs =>
      let st1 : PipeState := { st with all_results := st.all_results ++ rs }
      match runChecks fail_fast g.name rs st1 with
      | Sum.inl st2 => runGuardrails output ctx fail_fast gs st2
      | Sum.inr res => res
    | Except.error e =>
      runGuardrails output ctx fail_fast gs
        { all_results := st.all_results ++ [syntheticFailure g.name e],
          blocking := st.blocking ++ [g.name],
          should_block := true }

/-- GuardrailPipeline.validate: run all guardrails on the output. -/
def GuardrailPipeline.validate {Ctx : Type} (guardrails : List (Guardrail Ctx))
    (output : String) (ctx : Ctx) (fail_fast : Bool) : GuardrailPipelineResult :=
  runGuardrails output ctx fail_fast guardrails
    { all_results := [], blocking := [], should_block := false }

/-! ## Python numeric primitives, modelled over exact rationals -/

/-- Python round(x) to the nearest integer with ties to even
    (banker rounding), on an exact rational. -/
def pyroundInt (x : ℚ) : ℤ :=
  let f : ℤ := ⌊x⌋
  let frac : ℚ := x - f
  if frac < 1/2 then f
  else if 1/2 < frac then f + 1
  else if 2 ∣ f then f else f + 1

/-- Python round(x, 2): round to 2 decimal places. -/
def pyround2 (x : ℚ) : ℚ := (pyroundInt (100 * x) : ℚ) / 100

/-- Python int(x): truncation toward zero. -/
def pytrunc (x : ℚ) : ℤ := if 0 ≤ x then ⌊x⌋ else -⌊-x⌋

/-! ## Factual Grounding Guardrail, amount check
    (src/src/guardrails/factual_grounding.py, _validate_amounts).
    The regex extraction of currency-tagged amounts from the draft is
    represented by the list found_amounts of already-parsed amounts. -/

/-- Sum of amount_due over the obligations (total_outstanding). -/
def totalOutstanding (obls : List ObligationInfo) : ℚ :=
  (obls.map (fun o => o.amount_due)).sum

/-- The valid amount set: every amount_due and original_amount plus the
    total outstanding (lines 115-125). -/
def validAmounts (obls : List ObligationInfo) : List ℚ :=
  obls.map (fun o => o.amount_due) ++ obls.map (fun o => o.original_amount)
    ++ [totalOutstanding obls]

/-- The per-amount tolerance test (lines 147-152): membership in the
    2-decimal-rounded valid set, or in the integer-truncated valid set, or
    absolute difference below 0.01 from some valid amount. -/
def amountIsValid (obls : List ObligationInfo) (amount : ℚ) : Bool :=
  (validAmounts obls).any (fun v => decide (pyround2 v = amount))
    || (validAmounts obls).any (fun v => decide ((pytrunc v : ℚ) = amount))
    || (validAmounts obls).any (fun v => decide (|amount - v| < 1/100))

/-- FactualGroundingGuardrail._validate_amounts on the extracted amounts:
    collect the invalid amounts and fail if any exist (lines 144-174). -/
def validateAmounts (found_amounts : List ℚ) (obls : List ObligationInfo) :
    GuardrailResult :=
  let invalid := found_amounts.filter (fun a => !amountIsValid obls a)
  if invalid.isEmpty then
    mkPass "factual_grounding" GuardrailSeverity.CRITICAL
      "All monetary amounts validated" []
  else
    mkFail "factual_grounding" GuardrailSeverity.CRITICAL
      ("Amounts not found in context: " ++ toString invalid)
      (some (toString (validAmounts obls))) (some (toString invalid)) []

/-! ## Numerical Consistency Guardrail, days-overdue check
    (src/src/guardrails/numerical.py, _validate_days_overdue).
    The regex extraction of "N days past due/overdue/late" mentions is
    represented by the list of already-parsed nonnegative integers. -/

/-- max(valid_days) if valid_days else 0 (lines 101-102). -/
def maxDays : List ℤ → ℤ
  | [] => 0
  | d :: ds => ds.foldl max d

/-- The valid days set: each obligation days_past_due plus their maximum
    (lines 98-103). -/
def validDays (obls : List ObligationInfo) : List ℤ :=
  obls.map (fun o => o.days_past_due) ++ [maxDays (obls.map (fun o => o.days_past_due))]

/-- The per-mention tolerance test (line 112): within 1 day of some valid
    value. -/
def daysMentionIsValid (obls : List ObligationInfo) (m : ℕ) : Bool :=
  (validDays obls).any (fun v => |(m : ℤ) - v| ≤ 1)

/-- NumericalConsistencyGuardrail._validate_days_overdue on the extracted
    mentions: fail at the first mention that is out of tolerance AND
    strictly positive (lines 105-129). -/
def validateDaysOverdue (mentions : List ℕ) (obls : List ObligationInfo) :
    GuardrailResult :=
  match mentions.find? (fun m => !daysMentionIsValid obls m && decide (0 < m)) with
  | some m =>
    mkFail "numerical_consistency" GuardrailSeverity.CRITICAL
      ("Days overdue " ++ toString m ++ " not found in context")
      (some (toString (validDays obls))) (some (toString m)) []
  | none =>
    mkPass "numerical_consistency" GuardrailSeverity.CRITICAL
      "Days overdue calculations validated" []

/-! ## Temporal Consistency Guardrail, promise-date check
    (src/src/guardrails/temporal.py, _validate_promise_date_is_future).
    Dates are modelled as integer day ordinals; date subtraction yields the
    day difference.  The wall-clock date.today() is a parameter. -/

/-- TemporalConsistencyGuardrail._validate_promise_date_is_future
    (lines 45-84): pass if no promise date; fail if strictly before today;
    fail with a distinct message if more than 90 days in the future. -/
def validatePromiseDateIsFuture (today : ℤ) (promise_date : Option ℤ) :
    GuardrailResult :=
  match promise_date with
  | none =>
    mkPass "temporal_consistency" GuardrailSeverity.HIGH
      "No promise date to validate" []
  | some p =>
    if p < today then
      mkFail "temporal_consistency" GuardrailSeverity.HIGH
        ("Promise date " ++ toString p ++ " is " ++ toString (today - p)
          ++ " days in the past")
        (some "Date in future or today") (some (toString p))
        [("days_past", toString (today - p))]
    else if 90 < p - today then
      mkFail "temporal_consistency" GuardrailSeverity.HIGH
        ("Promise date " ++ toString p ++ " is " ++ toString (p - today)
          ++ " days in future (unusual)")
        (some "Date within 90 days") (some (toString p))
        [("days_future", toString (p - today))]
    else
      mkPass "temporal_consistency" GuardrailSeverity.HIGH
        "Promise date is valid" [("promise_date", toString p)]

/-! ## Entity Verification Guardrail, email check
    (src/src/guardrails/entity.py, _validate_emails).
    The regex extraction of email-shaped substrings from the draft is
    represented by the list found_emails. -/

/-- Python str.lower(), as a character-wise map (the native String.toLower
    is byte-position recursion the kernel cannot evaluate). -/
def pyLower (s : String) : String := String.mk (s.data.map Char.toLower)

/-- The valid email set, built solely from the extracted redirect email
    when one is provided and non-empty (Python truthiness), lowercased
    (lines 251-255). -/
def validEmailSet (redirect_email : Option String) : List String :=
  match redirect_email with
  | some r => if r = "" then [] else [pyLower r]
  | none => []

/-- EntityVerificationGuardrail._validate_emails (lines 237-282): pass if no
    emails found; fail if emails were found but no valid set exists; fail if
    some lowercased found email is outside the valid set; else pass. -/
def validateEmails (found_emails : List String) (redirect_email : Option String) :
    GuardrailResult :=
  if found_emails.isEmpty then
    mkPass "entity_verification" GuardrailSeverity.CRITICAL
      "No email addresses to validate" []
  else if (validEmailSet redirect_email).isEmpty then
    mkFail "entity_verification" GuardrailSeverity.CRITICAL
      ("Fabricated email addresses found: " ++ toString found_emails)
      (some "No emails or extracted redirect email")
      (some (toString found_emails)) []
  else if ((found_emails.map (fun e => pyLower e)).filter
      (fun e => !(validEmailSet redirect_email).contains e)).isEmpty then
    mkPass "entity_verification" GuardrailSeverity.CRITICAL
      "Email addresses validated" []
  else
    mkFail "entity_verification" GuardrailSeverity.CRITICAL
      ("Unverified email addresses found: "
        ++ toString ((found_emails.map (fun e => pyLower e)).filter
            (fun e => !(validEmailSet redirect_email).contains e)))
      (some (toString (validEmailSet redirect_email)))
      (some (toString ((found_emails.map (fun e => pyLower e)).filter
          (fun e => !(validEmailSet redirect_email).contains e)))) []

/-! ## Contextual Coherence Guardrail
    (src/src/guardrails/contextual.py), modelled in full: its checks are
    pure substring scans over the lowercased draft. -/

/-- Substring search on character lists: does the needle occur contiguously
    in the haystack. -/
def hasSub (needle : List Char) : List Char → Bool
  | [] => needle.isEmpty
  | c :: cs => needle.isPrefixOf (c :: cs) || hasSub needle cs

/-- Python substring containment: phrase in text. -/
def containsPhrase (text phrase : String) : Bool :=
  hasSub phrase.data text.data

/-- Payment-demand phrases, inappropriate during a dispute (lines 56-67). -/
def demandPhrases : List String :=
  ["pay immediately", "pay now", "immediate payment", "pay in full",
   "demand payment", "must pay", "required to pay",
   "failure to pay will result", "legal action", "collection agency"]

/-- Dispute-acknowledging phrases (lines 69-78). -/
def disputePhrases : List String :=
  ["dispute", "under review", "investigating", "looking into", "resolve",
   "concern", "issue"]

/-- Harsh/demanding phrases, inappropriate for hardship (lines 113-122). -/
def harshPhrases : List String :=
  ["failure to pay", "will be forced", "no choice but", "legal consequences",
   "must pay immediately", "demand", "threaten"]

/-- Empathetic phrases, appropriate for hardship (lines 124-136). -/
def empatheticPhrases : List String :=
  ["understand", "difficult", "challenging", "work with you", "payment plan",
   "options", "help", "support", "flexibility", "circumstances"]

/-- History-referencing phrases (lines 173-183). -/
def historyPhrases : List String :=
  ["previous", "history", "past", "again", "before", "commitment", "promise",
   "assured"]

/-- ContextualCoherenceGuardrail._validate_dispute_awareness (lines 51-107). -/
def validateDisputeAwareness (output : String) : GuardrailResult :=
  let ol := (pyLower output)
  let found_demands := demandPhrases.filter (fun p => containsPhrase ol p)
  let acknowledges := disputePhrases.any (fun p => containsPhrase ol p)
  if !found_demands.isEmpty && !acknowledges then
    mkFail "contextual_coherence" GuardrailSeverity.MEDIUM
      "Output demands payment during active dispute without acknowledgment"
      (some "Acknowledge dispute, avoid payment demands")
      (some (toString found_demands)) []
  else if !acknowledges then
    mkFail "contextual_coherence" GuardrailSeverity.MEDIUM
      "Output does not acknowledge active dispute"
      (some "Reference to dispute or investigation")
      (some "No dispute acknowledgment") []
  else
    mkPass "contextual_coherence" GuardrailSeverity.MEDIUM
      "Output appropriately handles dispute context" []

/-- ContextualCoherenceGuardrail._validate_hardship_tone (lines 109-166). -/
def validateHardshipTone (output : String) : GuardrailResult :=
  let ol := (pyLower output)
  let found_harsh := harshPhrases.filter (fun p => containsPhrase ol p)
  let found_empathetic := empatheticPhrases.filter (fun p => containsPhrase ol p)
  if !found_harsh.isEmpty && found_empathetic.isEmpty then
    mkFail "contextual_coherence" GuardrailSeverity.MEDIUM
      "Output uses harsh tone for hardship case"
      (some "Empathetic language, payment options")
      (some (toString found_harsh)) []
  else if found_empathetic.isEmpty then
    mkFail "contextual_coherence" GuardrailSeverity.MEDIUM
      "Output lacks empathetic language for hardship case"
      (some "Understanding tone, payment options")
      (some "No empathetic phrases detected") []
  else
    mkPass "contextual_coherence" GuardrailSeverity.MEDIUM
      "Output uses appropriate tone for hardship case" []

/-- ContextualCoherenceGuardrail._validate_promise_awareness (lines 168-210). -/
def validatePromiseAwareness (output : String) (ctx : CaseContext) :
    GuardrailResult :=
  let ol := (pyLower output)
  if 2 ≤ ctx.broken_promises_count then
    if historyPhrases.any (fun p => containsPhrase ol p) then
      mkPass "contextual_coherence" GuardrailSeverity.MEDIUM
        "Output acknowledges payment history" []
    else
      mkFail "contextual_coherence" GuardrailSeverity.MEDIUM
        ("Output does not reference " ++ toString ctx.broken_promises_count
          ++ " broken promises")
        (some "Acknowledgment of payment history") (some "No history reference") []
  else
    mkPass "contextual_coherence" GuardrailSeverity.MEDIUM
      "No significant promise history to reference" []

/-- ContextualCoherenceGuardrail.validate (lines 29-49): run the dispute,
    hardship and broken-promise checks when their context flags are set;
    when none applies return a single unconditional pass. -/
def contextualValidate (output : String) (ctx : CaseContext) :
    List GuardrailResult :=
  let rs :=
    (if ctx.active_dispute then [validateDisputeAwareness output] else [])
      ++ (if ctx.hardship_indicated then [validateHardshipTone output] else [])
      ++ (if 0 < ctx.broken_promises_count
          then [validatePromiseAwareness output ctx] else [])
  if rs.isEmpty then
    [mkPass "contextual_coherence" GuardrailSeverity.MEDIUM
      "No special context conditions to validate" []]
  else rs

/-- The ContextualCoherenceGuardrail as a pipeline guardrail (MEDIUM
    severity, lines 23-27); its validate never raises. -/
def contextualGuardrail : Guardrail CaseContext :=
  { name := "contextual_coherence", severity := GuardrailSeverity.MEDIUM,
    validate := fun output ctx => Except.ok (contextualValidate output ctx) }

/-! ## Helper lemmas about the pipeline loops -/

/-- No result in the list is a CRITICAL blocking failure. -/
def NoCriticalBlocker (rs : List GuardrailResult) : Prop :=
  ∀ r ∈ rs, ¬(r.should_block = true ∧ r.severity = GuardrailSeverity.CRITICAL)

/-- Full case analysis of the inner result loop: either it completes,
    returning the state with should_block accumulated over the scanned
    results and one copy of the guardrail name appended per blocking
    result (and, under fail_fast, no CRITICAL blocking result exists); or
    it short-circuits, in which case fail_fast is on, a CRITICAL blocking
    result is among the scanned results, and the early aggregate carries
    all_passed=false, should_block=true, retry_suggested=true and exactly
    the results accumulated so far. -/
theorem runChecks_spec (ff : Bool) (name : String) (rs : List GuardrailResult)
    (st : PipeState) :
    (∃ st2, runChecks ff name rs st = Sum.inl st2
      ∧ st2.all_results = st.all_results
      ∧ st2.should_block = (st.should_block || rs.any (fun r => r.should_block))
      ∧ st2.blocking
          = st.blocking ++ List.replicate (rs.countP (fun r => r.should_block)) name
      ∧ (ff = true → NoCriticalBlocker rs))
    ∨ (∃ res r, runChecks ff name rs st = Sum.inr res
      ∧ r ∈ rs ∧ r.should_block = true
      ∧ r.severity = GuardrailSeverity.CRITICAL ∧ ff = true
      ∧ res.should_block = true ∧ res.all_passed = false
      ∧ res.retry_suggested = true ∧ res.results = st.all_results
      ∧ ∃ l, res.blocking_guardrails = st.blocking ++ l) := by
  induction rs generalizing st with
  | nil =>
    left
    refine ⟨st, rfl, rfl, by simp, ?_, by intro _ r hr; cases hr⟩
    rw [List.countP_nil]
    simp
  | cons r rs ih =>
    by_cases hb : r.should_block = true
    · by_cases hc : (ff && (r.severity == GuardrailSeverity.CRITICAL)) = true
      · right
        rw [Bool.and_eq_true, beq_iff_eq] at hc
        have heq : runChecks ff name (r :: rs) st = Sum.inr
            { all_passed := false, should_block := true,
              results := st.all_results, retry_suggested := true,
              blocking_guardrails := st.blocking ++ [name] } := by
          simp [runChecks, hb, hc.1, hc.2]
        exact ⟨_, r, heq, List.mem_cons_self r rs, hb, hc.2, hc.1,
          rfl, rfl, rfl, rfl, ⟨[name], rfl⟩⟩
      · have heq : runChecks ff name (r :: rs) st
            = runChecks ff name rs
              { st with should_block := true, blocking := st.blocking ++ [name] } := by
          simp only [runChecks, hb, if_true]
          rw [if_neg]
          intro h
          exact hc h
        rcases ih { st with should_block := true, blocking := st.blocking ++ [name] } with
          ⟨st2, h1, h2, h3, h4, h5⟩ | ⟨res, r2, h1, h2, h3, h4, h5, h6, h7, h8, h9, l, h10⟩
        · left
          refine ⟨st2, heq.trans h1, h2, ?_, ?_, ?_⟩
          · simp [h3, hb]
          · rw [h4]
            rw [List.countP_cons_of_pos _ _ hb]
            show st.blocking ++ [name] ++ List.replicate (rs.countP fun r => r.should_block) name
              = st.blocking ++ List.replicate ((rs.countP fun r => r.should_block) + 1) name
            rw [List.append_assoc]
            congr 1
          · intro hff r3 hr3
            rcases List.mem_cons.mp hr3 with h | h
            · subst h
              intro hcontra
              apply hc
              rw [hff, hcontra.2]
              decide
            · exact h5 hff r3 h
        · right
          exact ⟨res, r2, heq.trans h1, List.mem_cons_of_mem r h2, h3, h4, h5,
            h6, h7, h8, h9, ⟨[name] ++ l, by rw [h10]; simp⟩⟩
    · have heq : runChecks ff name (r :: rs) st = runChecks ff name rs st := by
        simp only [runChecks, hb]
        simp
      rcases ih st with
        ⟨st2, h1, h2, h3, h4, h5⟩ | ⟨res, r2, h1, h2, h3, h4, h5, h6, h7, h8, h9, l, h10⟩
      · left
        refine ⟨st2, heq.trans h1, h2, ?_, ?_, ?_⟩
        · rw [h3]
          simp [hb]
        · rw [h4]
          rw [List.countP_cons_of_neg]
          intro h
          exact hb h
        · intro hff r3 hr3
          rcases List.mem_cons.mp hr3 with h | h
          · subst h
            intro hcontra
            exact hb hcontra.1
          · exact h5 hff r3 h
      · right
        exact ⟨res, r2, heq.trans h1, List.mem_cons_of_mem r h2, h3, h4, h5,
          h6, h7, h8, h9, ⟨l, h10⟩⟩

/-- When fail_fast is off, or no CRITICAL blocking result occurs, the inner
    loop always completes without the early return. -/
theorem runChecks_inl (ff : Bool) (name : String) (rs : List GuardrailResult)
    (st : PipeState) (h : ff = false ∨ NoCriticalBlocker rs) :
    ∃ st2, runChecks ff name rs st = Sum.inl st2
      ∧ st2.all_results = st.all_results
      ∧ st2.should_block = (st.should_block || rs.any (fun r => r.should_block))
      ∧ st2.blocking
          = st.blocking ++ List.replicate (rs.countP (fun r => r.should_block)) name := by
  rcases runChecks_spec ff name rs st with
    ⟨st2, h1, h2, h3, h4, _⟩ | ⟨_, r, _, h2, h3, h4, h5, _⟩
  · exact ⟨st2, h1, h2, h3, h4⟩
  · exfalso
    rcases h with h | h
    · rw [h] at h5
      cases h5
    · exact h r h2 ⟨h3, h4⟩

/-- The outer loop only ever appends to the accumulated results and
    blocking names, and never clears the should_block flag. -/
theorem runGuardrails_extends {Ctx : Type} (output : String) (ctx : Ctx)
    (ff : Bool) (gs : List (Guardrail Ctx)) (st : PipeState) :
    (∃ l, (runGuardrails output ctx ff gs st).results = st.all_results ++ l)
      ∧ (∃ l, (runGuardrails output ctx ff gs st).blocking_guardrails
          = st.blocking ++ l)
      ∧ (st.should_block = true
          → (runGuardrails output ctx ff gs st).should_block = true) := by
  induction gs generalizing st with
  | nil =>
    exact ⟨⟨[], by simp [runGuardrails, mkFinalResult]⟩,
      ⟨[], by simp [runGuardrails, mkFinalResult]⟩,
      fun h => by simp [runGuardrails, mkFinalResult, h]⟩
  | cons g gs ih =>
    cases hv : g.validate output ctx with
    | ok rs =>
      have hrun : runGuardrails output ctx ff (g :: gs) st
          = match runChecks ff g.name rs
              { st with all_results := st.all_results ++ rs } with
            | Sum.inl st2 => runGuardrails output ctx ff gs st2
            | Sum.inr res => res := by
        simp only [runGuardrails, hv]
      rcases runChecks_spec ff g.name rs { st with all_results := st.all_results ++ rs }
        with ⟨st2, h1, h2, h3, h4, _⟩ | ⟨res, r, h1, _, _, _, _, h6, _, _, h9, l, h10⟩
      · rw [hrun, h1]
        rcases ih st2 with ⟨⟨l1, e1⟩, ⟨l2, e2⟩, e3⟩
        refine ⟨⟨rs ++ l1, by rw [e1, h2]; simp⟩,
          ⟨List.replicate (rs.countP fun r => r.should_block) g.name ++ l2,
            by rw [e2, h4]; simp⟩, fun hsb => ?_⟩
        apply e3
        rw [h3, hsb]
        simp
      · rw [hrun, h1]
        exact ⟨⟨rs, by rw [h9]⟩, ⟨l, h10⟩, fun _ => h6⟩
    | error e =>
      have hrun : runGuardrails output ctx ff (g :: gs) st
          = runGuardrails output ctx ff gs
            { all_results := st.all_results ++ [syntheticFailure g.name e],
              blocking := st.blocking ++ [g.name], should_block := true } := by
        simp only [runGuardrails, hv]
      rw [hrun]
      have hih := ih ⟨st.all_results ++ [syntheticFailure g.name e],
        st.blocking ++ [g.name], true⟩
      rcases hih with ⟨⟨l1, e1⟩, ⟨l2, e2⟩, e3⟩
      exact ⟨⟨[syntheticFailure g.name e] ++ l1, by rw [e1]; simp⟩,
        ⟨[g.name] ++ l2, by rw [e2]; simp⟩, fun _ => e3 rfl⟩

/-- Invariant carried by the outer loop: if the accumulated should_block
    flag agrees with "some accumulated result blocks", then the returned
    aggregate's should_block agrees with "some returned result blocks". -/
theorem runGuardrails_blocking_inv {Ctx : Type} (output : String) (ctx : Ctx)
    (ff : Bool) (gs : List (Guardrail Ctx)) (st : PipeState)
    (h : st.should_block = (st.all_results.any fun r => r.should_block)) :
    (runGuardrails output ctx ff gs st).should_block
      = ((runGuardrails output ctx ff gs st).results.any fun r => r.should_block) := by
  induction gs generalizing st with
  | nil => simp [runGuardrails, mkFinalResult, h]
  | cons g gs ih =>
    cases hv : g.validate output ctx with
    | ok rs =>
      have hrun : runGuardrails output ctx ff (g :: gs) st
          = match runChecks ff g.name rs
              { st with all_results := st.all_results ++ rs } with
            | Sum.inl st2 => runGuardrails output ctx ff gs st2
            | Sum.inr res => res := by
        simp only [runGuardrails, hv]
      rcases runChecks_spec ff g.name rs { st with all_results := st.all_results ++ rs }
        with ⟨st2, h1, h2, h3, h4, _⟩ | ⟨res, r, h1, hmem, hrb, _, _, h6, _, _, h9, _, _⟩
      · rw [hrun, h1]
        apply ih
        rw [h3, h2]
        simp only [List.any_append]
        rw [h]
      · rw [hrun, h1, h6, h9]
        symm
        rw [List.any_eq_true]
        exact ⟨r, by simp [hmem], hrb⟩
    | error e =>
      have hrun : runGuardrails output ctx ff (g :: gs) st
          = runGuardrails output ctx ff gs
            { all_results := st.all_results ++ [syntheticFailure g.name e],
              blocking := st.blocking ++ [g.name], should_block := true } := by
        simp only [runGuardrails, hv]
      rw [hrun]
      apply ih
      simp [syntheticFailure, GuardrailResult.should_block]

/-- When fail_fast is off or no guardrail ever produces a CRITICAL blocking
    result, the outer loop completes and returns the aggregate built by
    mkFinalResult from its final state. -/
theorem runGuardrails_complete {Ctx : Type} (output : String) (ctx : Ctx)
    (ff : Bool) (gs : List (Guardrail Ctx)) (st : PipeState)
    (h : ff = false ∨ ∀ g ∈ gs, ∀ rs, g.validate output ctx = Except.ok rs
      → NoCriticalBlocker rs) :
    ∃ st2, runGuardrails output ctx ff gs st = mkFinalResult st2 := by
  induction gs generalizing st with
  | nil => exact ⟨st, rfl⟩
  | cons g gs ih =>
    have htail : ff = false ∨ ∀ g2 ∈ gs, ∀ rs, g2.validate output ctx = Except.ok rs
        → NoCriticalBlocker rs := by
      rcases h with h | h
      · exact Or.inl h
      · exact Or.inr fun g2 hg2 rs hv => h g2 (List.mem_cons_of_mem g hg2) rs hv
    cases hv : g.validate output ctx with
    | ok rs =>
      have hnc : ff = false ∨ NoCriticalBlocker rs := by
        rcases h with h | h
        · exact Or.inl h
        · exact Or.inr (h g (List.mem_cons_self g gs) rs hv)
      rcases runChecks_inl ff g.name rs { st with all_results := st.all_results ++ rs }
        hnc with ⟨st2, h1, _, _, _⟩
      have hrun : runGuardrails output ctx ff (g :: gs) st
          = runGuardrails output ctx ff gs st2 := by
        simp only [runGuardrails, hv, h1]
      rw [hrun]
      exact ih st2 htail
    | error e =>
      have hrun : runGuardrails output ctx ff (g :: gs) st
          = runGuardrails output ctx ff gs
            { all_results := st.all_results ++ [syntheticFailure g.name e],
              blocking := st.blocking ++ [g.name], should_block := true } := by
        simp only [runGuardrails, hv]
      rw [hrun]
      exact ih _ htail

/-- When a guardrail returns a CRITICAL blocking result under fail_fast,
    the run short-circuits at that guardrail: the aggregate does not depend
    on the remaining guardrails and carries should_block=true,
    all_passed=false and retry_suggested=true. -/
theorem runGuardrails_early {Ctx : Type} (output : String) (ctx : Ctx)
    (g : Guardrail Ctx) (st : PipeState) (rs : List GuardrailResult)
    (r : GuardrailResult) (hv : g.validate output ctx = Except.ok rs)
    (hmem : r ∈ rs) (hrb : r.should_block = true)
    (hcrit : r.severity = GuardrailSeverity.CRITICAL) :
    ∃ res, (∀ gs2, runGuardrails output ctx true (g :: gs2) st = res)
      ∧ res.should_block = true ∧ res.all_passed = false
      ∧ res.retry_suggested = true := by
  rcases runChecks_spec true g.name rs { st with all_results := st.all_results ++ rs }
    with ⟨st2, _, _, _, _, h5⟩ | ⟨res, r2, h1, _, _, _, _, h6, h7, h8, _, _⟩
  · exact absurd ⟨hrb, hcrit⟩ (h5 rfl r hmem)
  · refine ⟨res, fun gs2 => ?_, h6, h7, h8⟩
    simp only [runGuardrails, hv, h1]

/-- Guardrails that complete without a CRITICAL blocking result are
    traversed without short-circuiting: the run over a prefix followed by a
    remainder factors through some intermediate state. -/
theorem runGuardrails_skip {Ctx : Type} (output : String) (ctx : Ctx) (ff : Bool)
    (gs1 : List (Guardrail Ctx)) (st : PipeState)
    (h : ∀ g ∈ gs1, ∀ rs, g.validate output ctx = Except.ok rs
      → NoCriticalBlocker rs) :
    ∃ st2, ∀ rest, runGuardrails output ctx ff (gs1 ++ rest) st
      = runGuardrails output ctx ff rest st2 := by
  induction gs1 generalizing st with
  | nil => exact ⟨st, fun rest => rfl⟩
  | cons g gs1 ih =>
    have htail : ∀ g2 ∈ gs1, ∀ rs, g2.validate output ctx = Except.ok rs
        → NoCriticalBlocker rs :=
      fun g2 hg2 rs hv => h g2 (List.mem_cons_of_mem g hg2) rs hv
    cases hv : g.validate output ctx with
    | ok rs =>
      rcases runChecks_inl ff g.name rs { st with all_results := st.all_results ++ rs }
        (Or.inr (h g (List.mem_cons_self g gs1) rs hv)) with ⟨st2, h1, _, _, _⟩
      rcases ih st2 htail with ⟨st3, hst3⟩
      refine ⟨st3, fun rest => ?_⟩
      have hrun : runGuardrails output ctx ff ((g :: gs1) ++ rest) st
          = runGuardrails output ctx ff (gs1 ++ rest) st2 := by
        simp only [List.cons_append, runGuardrails, hv, h1, List.append_eq]
      rw [hrun]
      exact hst3 rest
    | error e =>
      rcases ih ⟨st.all_results ++ [syntheticFailure g.name e],
          st.blocking ++ [g.name], true⟩ htail with ⟨st3, hst3⟩
      refine ⟨st3, fun rest => ?_⟩
      have hrun : runGuardrails output ctx ff ((g :: gs1) ++ rest) st
          = runGuardrails output ctx ff (gs1 ++ rest)
            { all_results := st.all_results ++ [syntheticFailure g.name e],
              blocking := st.blocking ++ [g.name], should_block := true } := by
        simp only [List.cons_append, runGuardrails, hv, List.append_eq]
      rw [hrun]
      exact hst3 rest

/-- The result list a guardrail contributes on this input (its ok payload;
    empty for an erroring guardrail). -/
def resultsOf {Ctx : Type} (output : String) (ctx : Ctx) (g : Guardrail Ctx) :
    List GuardrailResult :=
  match g.validate output ctx with
  | Except.ok rs => rs
  | Except.error _ => []

/-- A run over guardrails that all succeed and produce only non-blocking
    results completes with exactly the concatenation of their result lists
    appended, without touching should_block or the blocking names. -/
theorem runGuardrails_nonblocking {Ctx : Type} (output : String) (ctx : Ctx)
    (ff : Bool) (gs : List (Guardrail Ctx)) (st : PipeState)
    (hok : ∀ g ∈ gs, ∃ rs, g.validate output ctx = Except.ok rs)
    (hnb : ∀ g ∈ gs, ∀ r ∈ resultsOf output ctx g, r.should_block = false) :
    runGuardrails output ctx ff gs st
      = mkFinalResult
        ⟨st.all_results ++ (gs.map (resultsOf output ctx)).flatten,
          st.blocking, st.should_block⟩ := by
  induction gs generalizing st with
  | nil => simp [runGuardrails]
  | cons g gs ih =>
    rcases hok g (List.mem_cons_self g gs) with ⟨rs, hv⟩
    have hrs : resultsOf output ctx g = rs := by
      rw [resultsOf, hv]
    have hnbg : ∀ r ∈ rs, r.should_block = false := by
      rw [hrs.symm] at *
      exact hnb g (List.mem_cons_self g gs)
    have hanyf : (rs.any fun r => r.should_block) = false := by
      rw [List.any_eq_false]
      intro r hr
      rw [hnbg r hr]
      simp
    have hcount : (rs.countP fun r => r.should_block) = 0 := by
      rw [List.countP_eq_zero]
      intro r hr
      rw [hnbg r hr]
      simp
    rcases runChecks_inl ff g.name rs { st with all_results := st.all_results ++ rs }
      (Or.inr fun r hr hcontra => by rw [hnbg r hr] at hcontra; cases hcontra.1)
      with ⟨st2, h1, h2, h3, h4⟩
    have hrun : runGuardrails output ctx ff (g :: gs) st
        = runGuardrails output ctx ff gs st2 := by
      simp only [runGuardrails, hv, h1]
    have hst2 : st2 = ⟨st.all_results ++ rs, st.blocking, st.should_block⟩ := by
      cases st2
      simp only at h2 h3 h4
      simp only [hanyf, Bool.or_false] at h3
      simp only [hcount, List.replicate_zero, List.append_nil] at h4
      rw [PipeState.mk.injEq]
      exact ⟨h2, h4, h3⟩
    rw [hrun, hst2, ih _ (fun g2 hg2 => hok g2 (List.mem_cons_of_mem g hg2))
      (fun g2 hg2 => hnb g2 (List.mem_cons_of_mem g hg2))]
    simp [hrs, List.append_assoc]

/-! ## Concrete fixtures used by witnesses and counterexamples -/

/-- A minimal case context. -/
def ctx0 : CaseContext :=
  { party := { party_id := "P1", customer_code := "CUST-001", name := "Acme Corp" } }

/-- A guardrail producing one CRITICAL blocking failure. -/
def critFailResult : GuardrailResult :=
  mkFail "factual_grounding" GuardrailSeverity.CRITICAL
    "Invoice numbers not found in context: [99999]" none none []

/-- Fixture guardrail whose only check fails at CRITICAL severity. -/
def critFailGuardrail : Guardrail CaseContext :=
  { name := "factual_grounding", severity := GuardrailSeverity.CRITICAL,
    validate := fun _ _ => Except.ok [critFailResult] }

/-- A HIGH-severity failing check result. -/
def highFailResult (msg : String) : GuardrailResult :=
  mkFail "temporal_consistency" GuardrailSeverity.HIGH msg none none []

/-- Fixture guardrail with three independently failing HIGH checks (as the
    temporal guardrail can produce when several date checks fail). -/
def highFail3Guardrail : Guardrail CaseContext :=
  { name := "temporal_consistency", severity := GuardrailSeverity.HIGH,
    validate := fun _ _ => Except.ok
      [highFailResult "promise date in the past",
       highFailResult "due date mismatch",
       highFailResult "stale date reference"] }

/-- Fixture guardrail whose single check passes. -/
def okGuardrail : Guardrail CaseContext :=
  { name := "contextual_coherence", severity := GuardrailSeverity.MEDIUM,
    validate := fun _ _ =>
      Except.ok [mkPass "contextual_coherence" GuardrailSeverity.MEDIUM "" []] }

/-- Fixture guardrail whose validate raises. -/
def errGuardrail : Guardrail CaseContext :=
  { name := "numerical_consistency", severity := GuardrailSeverity.CRITICAL,
    validate := fun _ _ => Except.error "regex engine failure" }

/-! ## Claim theorems -/

/-- Claim C1: in every pipeline output, over any guardrail list, output,
    context and fail_fast setting (fail-fast and fault paths included), the
    aggregate should_block equals "some result in results has should_block
    true", and each individual result's should_block is by definition
    "not passed and severity in (CRITICAL, HIGH)". -/
theorem C1_blocking_invariant {Ctx : Type} (gs : List (Guardrail Ctx))
    (output : String) (ctx : Ctx) (fail_fast : Bool) :
    ((GuardrailPipeline.validate gs output ctx fail_fast).should_block
      = ((GuardrailPipeline.validate gs output ctx fail_fast).results.any
          fun r => r.should_block))
    ∧ ∀ r : GuardrailResult, r.should_block
        = (!r.passed && (r.severity == GuardrailSeverity.CRITICAL
            || r.severity == GuardrailSeverity.HIGH)) := by
  constructor
  · exact runGuardrails_blocking_inv output ctx fail_fast gs
      ⟨[], [], false⟩ rfl
  · intro r
    rfl

/-- Claim C2: when a guardrail produces a CRITICAL blocking result and all
    guardrails before it in the pipeline order produce none, validate with
    fail_fast=true returns at that guardrail: the aggregate does not depend
    on the guardrails after it, and has should_block=true, all_passed=false
    and retry_suggested=true. -/
theorem C2_fail_fast_short_circuit {Ctx : Type} (output : String) (ctx : Ctx)
    (gs1 gs2 gs3 : List (Guardrail Ctx)) (g : Guardrail Ctx)
    (rs : List GuardrailResult) (r : GuardrailResult)
    (hclean : ∀ g2 ∈ gs1, ∀ rs2, g2.validate output ctx = Except.ok rs2
      → NoCriticalBlocker rs2)
    (hv : g.validate output ctx = Except.ok rs) (hmem : r ∈ rs)
    (hrb : r.should_block = true)
    (hcrit : r.severity = GuardrailSeverity.CRITICAL) :
    GuardrailPipeline.validate (gs1 ++ g :: gs2) output ctx true
      = GuardrailPipeline.validate (gs1 ++ g :: gs3) output ctx true
    ∧ (GuardrailPipeline.validate (gs1 ++ g :: gs2) output ctx true).should_block
        = true
    ∧ (GuardrailPipeline.validate (gs1 ++ g :: gs2) output ctx true).all_passed
        = false
    ∧ (GuardrailPipeline.validate (gs1 ++ g :: gs2) output ctx true).retry_suggested
        = true := by
  rcases runGuardrails_skip output ctx true gs1 ⟨[], [], false⟩ hclean with ⟨st2, hskip⟩
  rcases runGuardrails_early output ctx g st2 rs r hv hmem hrb hcrit with
    ⟨res, hearly, h1, h2, h3⟩
  have e2 : GuardrailPipeline.validate (gs1 ++ g :: gs2) output ctx true = res := by
    rw [GuardrailPipeline.validate, hskip (g :: gs2), hearly gs2]
  have e3 : GuardrailPipeline.validate (gs1 ++ g :: gs3) output ctx true = res := by
    rw [GuardrailPipeline.validate, hskip (g :: gs3), hearly gs3]
  rw [e2, e3]
  exact ⟨rfl, h1, h2, h3⟩

/-- Witness for C2 at a concrete pipeline: a CRITICAL failure in the first
    guardrail makes the run ignore the second guardrail entirely. -/
theorem C2_fail_fast_short_circuit_witness :
    GuardrailPipeline.validate ([] ++ critFailGuardrail :: [okGuardrail])
        "draft" ctx0 true
      = GuardrailPipeline.validate ([] ++ critFailGuardrail :: []) "draft" ctx0 true
    ∧ (GuardrailPipeline.validate ([] ++ critFailGuardrail :: [okGuardrail])
        "draft" ctx0 true).should_block = true
    ∧ (GuardrailPipeline.validate ([] ++ critFailGuardrail :: [okGuardrail])
        "draft" ctx0 true).all_passed = false
    ∧ (GuardrailPipeline.validate ([] ++ critFailGuardrail :: [okGuardrail])
        "draft" ctx0 true).retry_suggested = true :=
  C2_fail_fast_short_circuit "draft" ctx0 [] [okGuardrail] [] critFailGuardrail
    [critFailResult] critFailResult
    (fun g2 hg2 => absurd hg2 (List.not_mem_nil g2))
    rfl (List.mem_singleton.mpr rfl) rfl rfl

/-- Claim C3: a guardrail whose validate raises does not abort the run: the
    pipeline appends a synthetic failing HIGH result carrying the error
    message, marks the aggregate blocking with the guardrail name recorded,
    and continues with the remaining guardrails regardless of fail_fast
    (runGuardrails is a total function, so a pipeline result is always
    returned and no exception propagates). -/
theorem C3_fault_to_result {Ctx : Type} (output : String) (ctx : Ctx)
    (ff : Bool) (g : Guardrail Ctx) (gs : List (Guardrail Ctx))
    (st : PipeState) (e : String)
    (he : g.validate output ctx = Except.error e) :
    runGuardrails output ctx ff (g :: gs) st
      = runGuardrails output ctx ff gs
        ⟨st.all_results ++ [syntheticFailure g.name e],
          st.blocking ++ [g.name], true⟩
    ∧ (syntheticFailure g.name e).passed = false
    ∧ (syntheticFailure g.name e).severity = GuardrailSeverity.HIGH
    ∧ (syntheticFailure g.name e).message = "Guardrail execution error: " ++ e
    ∧ (syntheticFailure g.name e).should_block = true
    ∧ (runGuardrails output ctx ff (g :: gs) st).should_block = true
    ∧ syntheticFailure g.name e ∈ (runGuardrails output ctx ff (g :: gs) st).results
    ∧ g.name ∈ (runGuardrails output ctx ff (g :: gs) st).blocking_guardrails := by
  have hrun : runGuardrails output ctx ff (g :: gs) st
      = runGuardrails output ctx ff gs
        ⟨st.all_results ++ [syntheticFailure g.name e],
          st.blocking ++ [g.name], true⟩ := by
    simp only [runGuardrails, he]
  rcases runGuardrails_extends output ctx ff gs
    ⟨st.all_results ++ [syntheticFailure g.name e], st.blocking ++ [g.name], true⟩
    with ⟨⟨l1, e1⟩, ⟨l2, e2⟩, e3⟩
  refine ⟨hrun, rfl, rfl, rfl, rfl, ?_, ?_, ?_⟩
  · rw [hrun]
    exact e3 rfl
  · rw [hrun, e1]
    simp
  · rw [hrun, e2]
    simp

/-- Witness for C3 at a concrete run: the erroring guardrail contributes a
    synthetic HIGH failure and the following guardrail still runs. -/
theorem C3_fault_to_result_witness :
    runGuardrails "draft" ctx0 true (errGuardrail :: [okGuardrail]) ⟨[], [], false⟩
      = runGuardrails "draft" ctx0 true [okGuardrail]
        ⟨[] ++ [syntheticFailure errGuardrail.name "regex engine failure"],
          [] ++ [errGuardrail.name], true⟩
    ∧ (syntheticFailure errGuardrail.name "regex engine failure").passed = false
    ∧ (syntheticFailure errGuardrail.name "regex engine failure").severity
        = GuardrailSeverity.HIGH
    ∧ (syntheticFailure errGuardrail.name "regex engine failure").message
        = "Guardrail execution error: " ++ "regex engine failure"
    ∧ (syntheticFailure errGuardrail.name "regex engine failure").should_block = true
    ∧ (runGuardrails "draft" ctx0 true (errGuardrail :: [okGuardrail])
        ⟨[], [], false⟩).should_block = true
    ∧ syntheticFailure errGuardrail.name "regex engine failure"
        ∈ (runGuardrails "draft" ctx0 true (errGuardrail :: [okGuardrail])
            ⟨[], [], false⟩).results
    ∧ errGuardrail.name ∈ (runGuardrails "draft" ctx0 true
        (errGuardrail :: [okGuardrail]) ⟨[], [], false⟩).blocking_guardrails :=
  C3_fault_to_result "draft" ctx0 true errGuardrail [okGuardrail] ⟨[], [], false⟩
    "regex engine failure" rfl

/-- Claim C4 as amended: for every pipeline run that completes without the
    fail-fast early return, retry_suggested is true iff the pipeline blocks
    and blocking_guardrails has at most 2 entries, counting duplicate
    entries from multiple failing checks of the same guardrail (not the
    number of distinct guardrails). -/
theorem C4_retry_threshold {Ctx : Type} (gs : List (Guardrail Ctx))
    (output : String) (ctx : Ctx) (ff : Bool)
    (h : ff = false ∨ ∀ g ∈ gs, ∀ rs, g.validate output ctx = Except.ok rs
      → NoCriticalBlocker rs) :
    (GuardrailPipeline.validate gs output ctx ff).retry_suggested
      = ((GuardrailPipeline.validate gs output ctx ff).should_block
          && decide ((GuardrailPipeline.validate gs output ctx ff).blocking_guardrails.length
            ≤ 2)) := by
  rcases runGuardrails_complete output ctx ff gs ⟨[], [], false⟩ h with ⟨st2, h2⟩
  rw [GuardrailPipeline.validate, h2]
  rfl

/-- Witness for C4 at a concrete run with fail_fast off. -/
theorem C4_retry_threshold_witness :
    (GuardrailPipeline.validate [critFailGuardrail] "draft" ctx0 false).retry_suggested
      = ((GuardrailPipeline.validate [critFailGuardrail] "draft" ctx0 false).should_block
          && decide ((GuardrailPipeline.validate [critFailGuardrail]
            "draft" ctx0 false).blocking_guardrails.length ≤ 2)) :=
  C4_retry_threshold [critFailGuardrail] "draft" ctx0 false (Or.inl rfl)

/-- Counterexample to C4 as stated: one guardrail with three failing HIGH
    checks blocks with a single distinct blocking guardrail (so the claim
    would demand retry_suggested=true), yet the code counts the duplicated
    name three times and sets retry_suggested=false. -/
theorem C4_distinct_counterexample :
    (GuardrailPipeline.validate [highFail3Guardrail] "draft" ctx0 true).should_block
        = true
    ∧ ((GuardrailPipeline.validate [highFail3Guardrail]
        "draft" ctx0 true).blocking_guardrails.dedup.length ≤ 2)
    ∧ (GuardrailPipeline.validate [highFail3Guardrail]
        "draft" ctx0 true).retry_suggested = false := by
  refine ⟨?_, ?_, ?_⟩ <;> decide

/-! ## Amount and days-overdue check characterizations -/

/-- The amount check passes exactly when no extracted amount is invalid. -/
theorem validateAmounts_passed (found : List ℚ) (obls : List ObligationInfo) :
    (validateAmounts found obls).passed
      = (found.filter (fun a => !amountIsValid obls a)).isEmpty := by
  by_cases h : (found.filter (fun a => !amountIsValid obls a)).isEmpty = true
  · simp [validateAmounts, mkPass, h]
  · rw [Bool.not_eq_true] at h
    simp [validateAmounts, mkFail, h]

/-- The amount check passes exactly when every extracted amount satisfies
    the tolerance test. -/
theorem validateAmounts_passed_iff (found : List ℚ) (obls : List ObligationInfo) :
    (validateAmounts found obls).passed = true
      ↔ ∀ a ∈ found, amountIsValid obls a = true := by
  rw [validateAmounts_passed, List.isEmpty_iff, List.filter_eq_nil_iff]
  simp

/-- The per-amount tolerance test, in propositional form. -/
theorem amountIsValid_iff (obls : List ObligationInfo) (a : ℚ) :
    amountIsValid obls a = true
      ↔ (∃ v ∈ validAmounts obls, pyround2 v = a)
        ∨ (∃ v ∈ validAmounts obls, (pytrunc v : ℚ) = a)
        ∨ (∃ v ∈ validAmounts obls, |a - v| < 1/100) := by
  simp [amountIsValid, List.any_eq_true, or_assoc]

/-- The days-overdue check passes exactly when the scan finds no strictly
    positive out-of-tolerance mention. -/
theorem validateDaysOverdue_passed (mentions : List ℕ) (obls : List ObligationInfo) :
    (validateDaysOverdue mentions obls).passed
      = (mentions.find? (fun m => !daysMentionIsValid obls m && decide (0 < m))).isNone := by
  unfold validateDaysOverdue
  cases mentions.find? (fun m => !daysMentionIsValid obls m && decide (0 < m)) with
  | none => rfl
  | some m => rfl

/-- The days-overdue check passes exactly when every extracted mention is
    zero or within one day of a valid value. -/
theorem validateDaysOverdue_passed_iff (mentions : List ℕ) (obls : List ObligationInfo) :
    (validateDaysOverdue mentions obls).passed = true
      ↔ ∀ m ∈ mentions, m = 0 ∨ daysMentionIsValid obls m = true := by
  rw [validateDaysOverdue_passed, Option.isNone_iff_eq_none, List.find?_eq_none]
  constructor
  · intro h m hm
    have hp := h m hm
    by_cases hz : m = 0
    · exact Or.inl hz
    · right
      by_contra hnv
      rw [Bool.not_eq_true] at hnv
      apply hp
      rw [hnv]
      simp [Nat.pos_of_ne_zero hz]
  · intro h m hm
    rcases h m hm with hz | hv
    · subst hz
      simp
    · rw [hv]
      simp

/-- The per-mention days tolerance test, in propositional form. -/
theorem daysMentionIsValid_iff (obls : List ObligationInfo) (m : ℕ) :
    daysMentionIsValid obls m = true
      ↔ ∃ v ∈ validDays obls, |(m : ℤ) - v| ≤ 1 := by
  simp [daysMentionIsValid, List.any_eq_true]

/-- Fixture obligations: a single invoice of 1500.00, 30 days past due. -/
def obls1 : List ObligationInfo :=
  [{ invoice_number := "INV-12345", original_amount := 1500, amount_due := 1500,
     due_date := "2024-01-15", days_past_due := 30 }]

/-- Fixture obligations: a single invoice of 100.02. -/
def obls5 : List ObligationInfo :=
  [{ invoice_number := "INV-77", original_amount := 10002/100,
     amount_due := 10002/100, due_date := "2024-03-01", days_past_due := 10 }]

/-- The valid amount set of obls1 is three copies of 1500. -/
theorem validAmounts_obls1 : validAmounts obls1 = [1500, 1500, 1500] := by
  norm_num [validAmounts, obls1, totalOutstanding]

/-- Claim C5 as amended: an extracted amount is accepted iff it equals the
    2-decimal rounding of some valid amount, or the integer truncation of
    some valid amount, or differs from some valid amount by strictly less
    than 0.01; an amount differing from a valid amount by exactly 0.009
    passes, and one differing by 0.02 from every valid amount fails
    provided it equals no valid amount's 2-decimal rounding or integer
    truncation. -/
theorem C5_amount_tolerance (obls : List ObligationInfo) (found : List ℚ)
    (a1 a2 v1 : ℚ) (hv1 : v1 ∈ validAmounts obls) (h1 : |a1 - v1| = 9/1000)
    (h2 : ∀ v ∈ validAmounts obls, |a2 - v| = 2/100)
    (h3 : ∀ v ∈ validAmounts obls, pyround2 v ≠ a2)
    (h4 : ∀ v ∈ validAmounts obls, (pytrunc v : ℚ) ≠ a2) :
    ((validateAmounts found obls).passed = true
      ↔ ∀ a ∈ found, (∃ v ∈ validAmounts obls, pyround2 v = a)
          ∨ (∃ v ∈ validAmounts obls, (pytrunc v : ℚ) = a)
          ∨ (∃ v ∈ validAmounts obls, |a - v| < 1/100))
    ∧ (validateAmounts [a1] obls).passed = true
    ∧ (validateAmounts [a2] obls).passed = false := by
  refine ⟨?_, ?_, ?_⟩
  · rw [validateAmounts_passed_iff]
    constructor
    · intro h a ha
      exact (amountIsValid_iff obls a).mp (h a ha)
    · intro h a ha
      exact (amountIsValid_iff obls a).mpr (h a ha)
  · rw [validateAmounts_passed_iff]
    intro a ha
    rw [List.mem_singleton] at ha
    subst ha
    rw [amountIsValid_iff]
    refine Or.inr (Or.inr ⟨v1, hv1, ?_⟩)
    rw [h1]
    norm_num
  · rw [Bool.eq_false_iff]
    intro hpass
    have hok := (validateAmounts_passed_iff [a2] obls).mp hpass a2
      (List.mem_singleton.mpr rfl)
    rcases (amountIsValid_iff obls a2).mp hok with ⟨v, hv, he⟩ | ⟨v, hv, he⟩ | ⟨v, hv, he⟩
    · exact h3 v hv he
    · exact h4 v hv he
    · rw [h2 v hv] at he
      norm_num at he

/-- Witness for C5 at a concrete context (one invoice of 1500.00): the
    amount 1500.009 is accepted, the amount 1500.02 is rejected. -/
theorem C5_amount_tolerance_witness :
    ((validateAmounts [1500] obls1).passed = true
      ↔ ∀ a ∈ [(1500 : ℚ)], (∃ v ∈ validAmounts obls1, pyround2 v = a)
          ∨ (∃ v ∈ validAmounts obls1, (pytrunc v : ℚ) = a)
          ∨ (∃ v ∈ validAmounts obls1, |a - v| < 1/100))
    ∧ (validateAmounts [1500009/1000] obls1).passed = true
    ∧ (validateAmounts [150002/100] obls1).passed = false := by
  have hmem : (1500 : ℚ) ∈ validAmounts obls1 := by
    rw [validAmounts_obls1]
    simp
  have habs : ∀ v ∈ validAmounts obls1, v = 1500 := by
    intro v hv
    rw [validAmounts_obls1] at hv
    simpa using hv
  refine C5_amount_tolerance obls1 [1500] (1500009/1000) (150002/100) 1500
    hmem ?_ ?_ ?_ ?_
  · have hd : (1500009/1000 : ℚ) - 1500 = 9/1000 := by norm_num
    rw [hd, abs_of_nonneg]
    norm_num
  · intro v hv
    rw [habs v hv]
    have hd : (150002/100 : ℚ) - 1500 = 2/100 := by norm_num
    rw [hd, abs_of_nonneg]
    norm_num
  · intro v hv
    rw [habs v hv]
    norm_num [pyround2, pyroundInt]
  · intro v hv
    rw [habs v hv]
    norm_num [pytrunc]

/-- Counterexample to C5 as stated: against a context whose only valid
    amount is 100.02, the extracted amount 100.00 differs by exactly 0.02
    from every valid amount, yet the check accepts it (it equals the
    integer truncation of 100.02). -/
theorem C5_trunc_counterexample :
    ((validAmounts obls5).all (fun v => decide (|(100 : ℚ) - v| = 2/100)) = true)
    ∧ (validateAmounts [100] obls5).passed = true := by
  have hva : validAmounts obls5 = [10002/100, 10002/100, 10002/100] := by
    norm_num [validAmounts, obls5, totalOutstanding]
  have habs : |(100 : ℚ) - 10002/100| = 2/100 := by
    have hd : (100 : ℚ) - 10002/100 = -(2/100) := by norm_num
    rw [hd, abs_neg, abs_of_nonneg]
    norm_num
  constructor
  · rw [hva]
    simp [habs]
  · rw [validateAmounts_passed_iff]
    intro a ha
    rw [List.mem_singleton] at ha
    subst ha
    rw [amountIsValid_iff]
    refine Or.inr (Or.inl ⟨10002/100, ?_, ?_⟩)
    · rw [hva]
      simp
    · norm_num [pytrunc]

/-- Claim C6 as amended: a days-overdue mention is accepted iff it is
    within one day of some value in the valid set (each obligation's
    days_past_due plus their maximum) or it parses to 0; a mention off by
    exactly 1 day passes, and a strictly positive mention off by 2 or more
    days from every valid value fails. -/
theorem C6_days_overdue_tolerance (obls : List ObligationInfo) (ms : List ℕ)
    (m1 m2 : ℕ) (v1 : ℤ) (hv1 : v1 ∈ validDays obls)
    (h1 : |(m1 : ℤ) - v1| = 1) (h2 : 0 < m2)
    (hfar : ∀ v ∈ validDays obls, 2 ≤ |(m2 : ℤ) - v|) :
    ((validateDaysOverdue ms obls).passed = true
      ↔ ∀ m ∈ ms, m = 0 ∨ ∃ v ∈ validDays obls, |(m : ℤ) - v| ≤ 1)
    ∧ (validateDaysOverdue [m1] obls).passed = true
    ∧ (validateDaysOverdue [m2] obls).passed = false := by
  refine ⟨?_, ?_, ?_⟩
  · rw [validateDaysOverdue_passed_iff]
    constructor
    · intro h m hm
      rcases h m hm with hz | hv
      · exact Or.inl hz
      · exact Or.inr ((daysMentionIsValid_iff obls m).mp hv)
    · intro h m hm
      rcases h m hm with hz | hv
      · exact Or.inl hz
      · exact Or.inr ((daysMentionIsValid_iff obls m).mpr hv)
  · rw [validateDaysOverdue_passed_iff]
    intro m hm
    rw [List.mem_singleton] at hm
    subst hm
    refine Or.inr ((daysMentionIsValid_iff obls m).mpr ⟨v1, hv1, ?_⟩)
    rw [h1]
  · rw [Bool.eq_false_iff]
    intro hpass
    have hok := (validateDaysOverdue_passed_iff [m2] obls).mp hpass m2
      (List.mem_singleton.mpr rfl)
    rcases hok with hz | hv
    · omega
    · rcases (daysMentionIsValid_iff obls m2).mp hv with ⟨v, hv2, hle⟩
      have := hfar v hv2
      omega

/-- Witness for C6 against one obligation 30 days past due: the mention 29
    (off by one) passes and the mention 5 (off by 25) fails. -/
theorem C6_days_overdue_tolerance_witness :
    ((validateDaysOverdue [29, 31] obls1).passed = true
      ↔ ∀ m ∈ ([29, 31] : List ℕ), m = 0 ∨ ∃ v ∈ validDays obls1, |(m : ℤ) - v| ≤ 1)
    ∧ (validateDaysOverdue [29] obls1).passed = true
    ∧ (validateDaysOverdue [5] obls1).passed = false := by
  refine C6_days_overdue_tolerance obls1 [29, 31] 29 5 30 ?_ ?_ ?_ ?_
  · decide
  · decide
  · decide
  · decide

/-- Counterexample to C6 as stated: against one obligation 30 days past
    due, the mention 0 is off by at least 2 days from every valid value,
    yet the days-overdue check passes (the failure branch requires a
    strictly positive mention). -/
theorem C6_zero_counterexample :
    (validateDaysOverdue [0] obls1).passed = true
    ∧ ((validDays obls1).all (fun v => decide (2 ≤ |(0 : ℤ) - v|)) = true) := by
  constructor
  · decide
  · decide

/-- Claim C10: a days-overdue mention that parses to 0 never causes the
    check to fail, even when 0 is out of tolerance: prepending a 0 mention
    never changes the verdict, and a lone 0 mention always passes. -/
theorem C10_zero_mention_harmless (obls : List ObligationInfo) (ms : List ℕ) :
    ((validateDaysOverdue (0 :: ms) obls).passed
        = (validateDaysOverdue ms obls).passed)
    ∧ (validateDaysOverdue [0] obls).passed = true := by
  constructor
  · rw [validateDaysOverdue_passed, validateDaysOverdue_passed,
      List.find?_cons_of_neg]
    simp
  · rw [validateDaysOverdue_passed,
      show ([0] : List ℕ) = 0 :: [] from rfl, List.find?_cons_of_neg]
    · rfl
    · simp

/-! ## Temporal promise-date claim -/

/-- The last character of a string, used to distinguish the two failure
    messages of the promise-date check. -/
def lastChar (s : String) : Option Char := s.data.getLast?

/-- Appending a string with a known last character fixes the last character
    of the result. -/
theorem lastChar_append (s t : String) (c : Char)
    (h : t.data.getLast? = some c) : lastChar (s ++ t) = some c := by
  unfold lastChar
  rw [String.data_append, List.getLast?_append, h]
  rfl

/-- Every result of the promise-date check carries the guardrail severity
    HIGH. -/
theorem validatePromiseDateIsFuture_severity (today : ℤ) (d : Option ℤ) :
    (validatePromiseDateIsFuture today d).severity = GuardrailSeverity.HIGH := by
  unfold validatePromiseDateIsFuture
  cases d with
  | none => rfl
  | some y =>
    by_cases h1 : y < today
    · simp [h1, mkFail]
    · by_cases h2 : 90 < y - today
      · simp [h1, h2, mkFail]
      · simp [h1, h2, mkPass]

/-- Claim C7: with a promise date present, the check fails iff the date is
    strictly before today or more than 90 days after today; a date equal to
    today passes; the past-date and far-future failures have the same HIGH
    severity but different messages. -/
theorem C7_promise_date (today p q : ℤ) (hp : p < today) (hq : 90 < q - today) :
    (∀ x : ℤ, (validatePromiseDateIsFuture today (some x)).passed = false
      ↔ (x < today ∨ 90 < x - today))
    ∧ (validatePromiseDateIsFuture today (some today)).passed = true
    ∧ (validatePromiseDateIsFuture today (some p)).passed = false
    ∧ (validatePromiseDateIsFuture today (some q)).passed = false
    ∧ (validatePromiseDateIsFuture today (some p)).severity = GuardrailSeverity.HIGH
    ∧ (validatePromiseDateIsFuture today (some q)).severity = GuardrailSeverity.HIGH
    ∧ (validatePromiseDateIsFuture today (some p)).message
        ≠ (validatePromiseDateIsFuture today (some q)).message := by
  have hqnl : ¬q < today := by omega
  have hchar : ∀ x : ℤ, (validatePromiseDateIsFuture today (some x)).passed = false
      ↔ (x < today ∨ 90 < x - today) := by
    intro x
    unfold validatePromiseDateIsFuture
    by_cases h1 : x < today
    · simp [h1, mkFail]
    · by_cases h2 : 90 < x - today
      · simp [h1, h2, mkFail]
      · simp [h1, h2, mkPass]
  have hmsgp : (validatePromiseDateIsFuture today (some p)).message
      = "Promise date " ++ toString p ++ " is " ++ toString (today - p)
        ++ " days in the past" := by
    simp [validatePromiseDateIsFuture, hp, mkFail]
  have hmsgq : (validatePromiseDateIsFuture today (some q)).message
      = "Promise date " ++ toString q ++ " is " ++ toString (q - today)
        ++ " days in future (unusual)" := by
    simp [validatePromiseDateIsFuture, hqnl, hq, mkFail]
  refine ⟨hchar, ?_, ?_, ?_,
    validatePromiseDateIsFuture_severity today (some p),
    validatePromiseDateIsFuture_severity today (some q), ?_⟩
  · have h1 : ¬today < today := by omega
    have h2 : ¬90 < today - today := by omega
    simp [validatePromiseDateIsFuture, h1, h2, mkPass]
  · exact (hchar p).mpr (Or.inl hp)
  · exact (hchar q).mpr (Or.inr hq)
  · rw [hmsgp, hmsgq]
    intro heq
    have h1 := lastChar_append
      ("Promise date " ++ toString p ++ " is " ++ toString (today - p))
      " days in the past" 't' rfl
    have h2 := lastChar_append
      ("Promise date " ++ toString q ++ " is " ++ toString (q - today))
      " days in future (unusual)" ')' rfl
    rw [heq] at h1
    have hc := h1.symm.trans h2
    exact absurd hc (by decide)

/-- Witness for C7 with today=0: promise date -1 (yesterday) and promise
    date 100 (more than 90 days out) both fail at HIGH severity with
    different messages; promise date 0 (today) passes. -/
theorem C7_promise_date_witness :
    (∀ x : ℤ, (validatePromiseDateIsFuture 0 (some x)).passed = false
      ↔ (x < 0 ∨ 90 < x - 0))
    ∧ (validatePromiseDateIsFuture 0 (some 0)).passed = true
    ∧ (validatePromiseDateIsFuture 0 (some (-1))).passed = false
    ∧ (validatePromiseDateIsFuture 0 (some 100)).passed = false
    ∧ (validatePromiseDateIsFuture 0 (some (-1))).severity = GuardrailSeverity.HIGH
    ∧ (validatePromiseDateIsFuture 0 (some 100)).severity = GuardrailSeverity.HIGH
    ∧ (validatePromiseDateIsFuture 0 (some (-1))).message
        ≠ (validatePromiseDateIsFuture 0 (some 100)).message :=
  C7_promise_date 0 (-1) 100 (by decide) (by decide)

/-! ## Entity email claim -/

/-- Filtering the lowercased emails outside the valid set leaves nothing
    exactly when every found email lowercases into the valid set. -/
theorem emailsFilter_isEmpty (found valid : List String) :
    ((found.map (fun e => pyLower e)).filter (fun e => !valid.contains e)).isEmpty
      = found.all (fun e => valid.contains (pyLower e)) := by
  rw [Bool.eq_iff_iff, List.isEmpty_iff, List.filter_eq_nil_iff, List.all_eq_true]
  constructor
  · intro h e he
    have hh := h (pyLower e) (List.mem_map.mpr ⟨e, he, rfl⟩)
    simpa using hh
  · intro h x hx
    rcases List.mem_map.mp hx with ⟨e, he, rfl⟩
    simpa using h e he

/-- Claim C8: the email check passes exactly when no email was found, or
    the valid set (built solely from the extracted redirect email) is
    non-empty and every found email lowercases into it; hence any found
    email outside the valid set fails the check, an empty valid set fails
    the check whenever any email is present, and no found email passes it. -/
theorem C8_email_validation (found : List String) (redirect : Option String) :
    (validateEmails found redirect).passed
      = (found.isEmpty
          || (!(validEmailSet redirect).isEmpty
              && found.all (fun e => (validEmailSet redirect).contains (pyLower e)))) := by
  unfold validateEmails
  by_cases hf : found.isEmpty = true
  · rw [if_pos hf, hf]
    rfl
  · have hf2 : found.isEmpty = false := by rwa [Bool.not_eq_true] at hf
    rw [if_neg hf, hf2]
    by_cases hv : (validEmailSet redirect).isEmpty = true
    · rw [if_pos hv, hv]
      rfl
    · have hv2 : (validEmailSet redirect).isEmpty = false := by
        rwa [Bool.not_eq_true] at hv
      rw [if_neg hv, hv2]
      simp only [Bool.false_or, Bool.not_false, Bool.true_and]
      by_cases hi : ((found.map (fun e => pyLower e)).filter
          (fun e => !(validEmailSet redirect).contains e)).isEmpty = true
      · rw [if_pos hi]
        rw [emailsFilter_isEmpty] at hi
        rw [hi]
        rfl
      · have hi2 : ((found.map (fun e => pyLower e)).filter
            (fun e => !(validEmailSet redirect).contains e)).isEmpty = false := by
          rwa [Bool.not_eq_true] at hi
        rw [if_neg hi]
        rw [emailsFilter_isEmpty] at hi2
        rw [hi2]
        rfl

/-! ## Contextual coherence claim -/

/-- A passing result never blocks. -/
theorem passed_not_blocking (r : GuardrailResult) (h : r.passed = true) :
    r.should_block = false := by
  rw [GuardrailResult.should_block, h]
  rfl

/-- A MEDIUM-severity result never blocks, passed or failed. -/
theorem medium_not_blocking (r : GuardrailResult)
    (h : r.severity = GuardrailSeverity.MEDIUM) : r.should_block = false := by
  rw [GuardrailResult.should_block, h]
  simp

/-- Every dispute-awareness result carries the guardrail severity MEDIUM. -/
theorem validateDisputeAwareness_severity (output : String) :
    (validateDisputeAwareness output).severity = GuardrailSeverity.MEDIUM := by
  simp only [validateDisputeAwareness]
  split
  · rfl
  · split
    · rfl
    · rfl

/-- Every hardship-tone result carries the guardrail severity MEDIUM. -/
theorem validateHardshipTone_severity (output : String) :
    (validateHardshipTone output).severity = GuardrailSeverity.MEDIUM := by
  simp only [validateHardshipTone]
  split
  · rfl
  · split
    · rfl
    · rfl

/-- Every promise-awareness result carries the guardrail severity MEDIUM. -/
theorem validatePromiseAwareness_severity (output : String) (ctx : CaseContext) :
    (validatePromiseAwareness output ctx).severity = GuardrailSeverity.MEDIUM := by
  simp only [validatePromiseAwareness]
  split
  · split
    · rfl
    · rfl
  · rfl

/-- Membership in a conditional singleton pins the element down. -/
theorem mem_ite_singleton {α : Type} {r x : α} {c : Prop} [Decidable c]
    (h : r ∈ if c then [x] else []) : r = x := by
  split at h
  · exact List.mem_singleton.mp h
  · cases h

/-- Every result of the contextual coherence guardrail carries severity
    MEDIUM (so none of them ever blocks). -/
theorem contextualValidate_severity (output : String) (ctx : CaseContext) :
    ∀ r ∈ contextualValidate output ctx, r.severity = GuardrailSeverity.MEDIUM := by
  intro r hr
  simp only [contextualValidate] at hr
  set L := ((if ctx.active_dispute = true then [validateDisputeAwareness output]
      else []) ++ (if ctx.hardship_indicated = true then [validateHardshipTone output]
      else [])) ++ (if 0 < ctx.broken_promises_count
      then [validatePromiseAwareness output ctx] else []) with hL
  split at hr
  · rw [List.mem_singleton] at hr
    subst hr
    rfl
  · rw [hL] at hr
    rcases List.mem_append.mp hr with hr2 | hr2
    · rcases List.mem_append.mp hr2 with hr3 | hr3
      · rw [mem_ite_singleton hr3]
        exact validateDisputeAwareness_severity output
      · rw [mem_ite_singleton hr3]
        exact validateHardshipTone_severity output
    · rw [mem_ite_singleton hr2]
      exact validatePromiseAwareness_severity output ctx

/-- With an active dispute, the dispute-awareness result is among the
    contextual guardrail's results. -/
theorem contextualValidate_mem_dispute (output : String) (ctx : CaseContext)
    (hd : ctx.active_dispute = true) :
    validateDisputeAwareness output ∈ contextualValidate output ctx := by
  simp [contextualValidate, hd]

/-- With demand language and no dispute acknowledgment, the
    dispute-awareness check fails. -/
theorem validateDisputeAwareness_fails (output : String)
    (hdem : demandPhrases.filter (fun p => containsPhrase (pyLower output) p) ≠ [])
    (hack : ∀ p ∈ disputePhrases, containsPhrase (pyLower output) p = false) :
    (validateDisputeAwareness output).passed = false := by
  have h1 : (demandPhrases.filter
      (fun p => containsPhrase (pyLower output) p)).isEmpty = false := by
    rcases hl : demandPhrases.filter (fun p => containsPhrase (pyLower output) p)
      with _ | ⟨a, l⟩
    · exact absurd hl hdem
    · rfl
  have h2 : (disputePhrases.any (fun p => containsPhrase (pyLower output) p))
      = false := by
    rw [List.any_eq_false]
    intro p hp
    rw [hack p hp]
    simp
  simp [validateDisputeAwareness, h1, h2, mkFail]

/-- Claim C9: with an active dispute, a draft containing a payment-demand
    phrase and no dispute-acknowledging phrase makes the Contextual
    Coherence guardrail produce a failing MEDIUM non-blocking result, and a
    pipeline run in which every other guardrail succeeds with passing
    results yields all_passed=false and should_block=false. -/
theorem C9_dispute_advisory (output : String) (ctx : CaseContext)
    (gs1 gs2 : List (Guardrail CaseContext)) (ff : Bool)
    (hd : ctx.active_dispute = true)
    (hdem : demandPhrases.filter (fun p => containsPhrase (pyLower output) p) ≠ [])
    (hack : ∀ p ∈ disputePhrases, containsPhrase (pyLower output) p = false)
    (hok : ∀ g ∈ gs1 ++ gs2, ∃ rs, g.validate output ctx = Except.ok rs
      ∧ ∀ r2 ∈ rs, r2.passed = true) :
    ((validateDisputeAwareness output).passed = false
      ∧ (validateDisputeAwareness output).severity = GuardrailSeverity.MEDIUM
      ∧ (validateDisputeAwareness output).should_block = false)
    ∧ (GuardrailPipeline.validate (gs1 ++ contextualGuardrail :: gs2)
        output ctx ff).all_passed = false
    ∧ (GuardrailPipeline.validate (gs1 ++ contextualGuardrail :: gs2)
        output ctx ff).should_block = false := by
  have hokall : ∀ g ∈ gs1 ++ contextualGuardrail :: gs2,
      ∃ rs, g.validate output ctx = Except.ok rs := by
    intro g hg
    rcases List.mem_append.mp hg with h | h
    · rcases hok g (List.mem_append_left gs2 h) with ⟨rs, hv, _⟩
      exact ⟨rs, hv⟩
    · rcases List.mem_cons.mp h with h | h
      · subst h
        exact ⟨contextualValidate output ctx, rfl⟩
      · rcases hok g (List.mem_append_right gs1 h) with ⟨rs, hv, _⟩
        exact ⟨rs, hv⟩
  have hnb : ∀ g ∈ gs1 ++ contextualGuardrail :: gs2,
      ∀ r ∈ resultsOf output ctx g, r.should_block = false := by
    intro g hg r hr
    rcases List.mem_append.mp hg with h | h
    · rcases hok g (List.mem_append_left gs2 h) with ⟨rs, hv, hps⟩
      simp only [resultsOf, hv] at hr
      exact passed_not_blocking r (hps r hr)
    · rcases List.mem_cons.mp h with h | h
      · subst h
        have hres : resultsOf output ctx contextualGuardrail
            = contextualValidate output ctx := rfl
        rw [hres] at hr
        exact medium_not_blocking r (contextualValidate_severity output ctx r hr)
      · rcases hok g (List.mem_append_right gs1 h) with ⟨rs, hv, hps⟩
        simp only [resultsOf, hv] at hr
        exact passed_not_blocking r (hps r hr)
  have hrun : GuardrailPipeline.validate (gs1 ++ contextualGuardrail :: gs2)
      output ctx ff
      = mkFinalResult ⟨[] ++ ((gs1 ++ contextualGuardrail :: gs2).map
          (resultsOf output ctx)).flatten, [], false⟩ :=
    runGuardrails_nonblocking output ctx ff (gs1 ++ contextualGuardrail :: gs2)
      ⟨[], [], false⟩ hokall hnb
  refine ⟨⟨validateDisputeAwareness_fails output hdem hack,
    validateDisputeAwareness_severity output,
    medium_not_blocking _ (validateDisputeAwareness_severity output)⟩, ?_, ?_⟩
  · rw [hrun]
    show (([] ++ ((gs1 ++ contextualGuardrail :: gs2).map
        (resultsOf output ctx)).flatten).all fun r => r.passed) = false
    rw [List.nil_append]
    refine List.all_eq_false.mpr ⟨validateDisputeAwareness output, ?_, ?_⟩
    · refine List.mem_flatten.mpr ⟨contextualValidate output ctx, ?_,
        contextualValidate_mem_dispute output ctx hd⟩
      exact List.mem_map.mpr ⟨contextualGuardrail,
        List.mem_append_right gs1 (List.mem_cons_self contextualGuardrail gs2), rfl⟩
    · rw [validateDisputeAwareness_fails output hdem hack]
      simp
  · rw [hrun]
    rfl

/-- Fixture context with an active dispute. -/
def ctx9 : CaseContext :=
  { party := { party_id := "P1", customer_code := "CUST-001", name := "Acme Corp" },
    active_dispute := true }

/-- Witness for C9: the draft of scenario 4 with an active dispute and one
    other all-passing guardrail. -/
theorem C9_dispute_advisory_witness :
    ((validateDisputeAwareness "You must pay immediately").passed = false
      ∧ (validateDisputeAwareness "You must pay immediately").severity
          = GuardrailSeverity.MEDIUM
      ∧ (validateDisputeAwareness "You must pay immediately").should_block = false)
    ∧ (GuardrailPipeline.validate ([] ++ contextualGuardrail :: [okGuardrail])
        "You must pay immediately" ctx9 true).all_passed = false
    ∧ (GuardrailPipeline.validate ([] ++ contextualGuardrail :: [okGuardrail])
        "You must pay immediately" ctx9 true).should_block = false := by
  refine C9_dispute_advisory "You must pay immediately" ctx9 [] [okGuardrail] true
    rfl ?_ ?_ ?_
  · decide
  · decide
  · intro g hg
    rw [List.nil_append, List.mem_singleton] at hg
    subst hg
    refine ⟨[mkPass "contextual_coherence" GuardrailSeverity.MEDIUM "" []], rfl, ?_⟩
    intro r2 hr2
    rw [List.mem_singleton] at hr2
    subst hr2
    rfl

end Solvix